import Mathlib

/-!
Shallow embedding of the dailynews repository (Python) in Lean 4, together
with theorems settling the spec claims about it.

Source files embedded:
  * src/main.py          — retry_with_backoff, run_pipeline
  * src/config.py        — retry defaults
  * src/audio/script_generator.py — ScriptGenerator
  * src/briefing_generator.py     — BriefingGenerator._build_subject
-/

namespace DailyNews

/-! ## Retry with backoff (src/main.py, retry_with_backoff)

The Python function calls `func()` up to `max_attempts` times.  A stateful
`func` may behave differently on each call, so the embedding takes
`func : Nat → Except Err Val`, the outcome of the i-th call (0-indexed).
The trace records the result, the number of calls made, and the list of
sleep durations performed (in seconds), in order. -/

structure RetryTrace (Err Val : Type) where
  result : Except (Option Err) Val
  calls : Nat
  sleeps : List Nat
  deriving Repr

/-- Loop body of `retry_with_backoff`: `remaining` iterations left,
`attempt` is the current 0-based attempt index, `last` the last exception
seen (`none` before any attempt, mirroring `last_exception = None`).
After the loop, Python executes `raise last_exception`; raising `None`
is modelled by `Except.error none`. -/
def retryGo (func : Nat → Except Err Val) (maxAttempts baseDelay : Nat) :
    Nat → Nat → Option Err → RetryTrace Err Val
  | 0, _, last => ⟨Except.error last, 0, []⟩
  | remaining + 1, attempt, _ =>
    match func attempt with
    | Except.ok v => ⟨Except.ok v, 1, []⟩
    | Except.error e =>
      let t := retryGo func maxAttempts baseDelay remaining (attempt + 1) (some e)
      ⟨t.result, t.calls + 1,
        if attempt < maxAttempts - 1 then baseDelay * 2 ^ attempt :: t.sleeps else t.sleeps⟩

/-- `retry_with_backoff(func, max_attempts, base_delay)` from src/main.py. -/
def retry_with_backoff (func : Nat → Except Err Val) (maxAttempts baseDelay : Nat) :
    RetryTrace Err Val :=
  retryGo func maxAttempts baseDelay maxAttempts 0 none

/-- Default of `Config.retry_max_delay` (src/config.py line 151):
`max_delay_seconds` falls back to 60.  `retry_with_backoff` never reads it. -/
def retry_max_delay_default : Nat := 60

/-! ## Data model

A story dict as produced by the deduplicator and consumed by the script
and briefing generators.  The Python code reads fields with
`story.get(key, default)`, so missing keys behave as the defaults; the
structure bakes those defaults in (empty string, empty list, count 1). -/

structure Story where
  headline : String
  summary : String
  why_it_matters : String
  sources : List String
  mention_count : Nat
  deriving Repr, DecidableEq

/-- The deduplicator output fields consumed by the script generator and the
pipeline statistics (`top_stories`, `secondary_stories`); `.get` with
default `[]` makes absent keys equal to empty lists. -/
structure ProcessedData where
  top_stories : List Story
  secondary_stories : List Story
  deriving Repr, DecidableEq

/-- Python `str.strip()`: drop whitespace from both ends. -/
def pyStrip (s : String) : String :=
  ⟨(((s.data.dropWhile Char.isWhitespace).reverse.dropWhile Char.isWhitespace).reverse)⟩

/-! ## ScriptGenerator (src/audio/script_generator.py)

`generate` reads the current date via `datetime.now()`; the embedding makes
that hidden input explicit as the `date_spoken` argument. -/

namespace ScriptGenerator

/-- `_generate_intro` (lines 51-56). -/
def generate_intro (date_spoken : String) (story_count : Nat) : String :=
  "Good morning. Here's your AI news briefing for " ++ date_spoken ++
    ". Today I have " ++ toString story_count ++
    " top stories for you, plus a roundup of other notable developments."

/-- The `lines` built by the loop of `_generate_executive_summary`
(lines 65-68): one entry `headline + "."` per truthy (non-empty) headline. -/
def execLines : List Story → List String
  | [] => []
  | st :: rest =>
    if st.headline = "" then execLines rest
    else (st.headline ++ ".") :: execLines rest

/-- `_generate_executive_summary` (lines 58-70). -/
def generate_executive_summary (top_stories : List Story) : String :=
  if top_stories = [] then ""
  else
    String.intercalate " "
      ("First, a quick overview of today's top headlines." :: execLines (top_stories.take 5))

/-- The story-intro branch of `_generate_top_stories` (lines 86-92):
`i` is the 1-based position, `total` the number of top stories. -/
def storyIntroText (i total : Nat) (headline : String) : String :=
  if i = 1 then "Our top story today: " ++ headline ++ ". "
  else if i = total then "And finally in our top stories: " ++ headline ++ ". "
  else "Next up: " ++ headline ++ ". "

/-- The `story_text` accumulation of `_generate_top_stories` (lines 86-104),
before the final `.strip()`: each conditional `+=` of the Python code is an
appended conditional segment (empty when the condition is falsy). -/
def storyText (i total : Nat) (st : Story) : String :=
  storyIntroText i total st.headline ++
    (if st.summary = "" then "" else st.summary ++ " ") ++
    (if st.why_it_matters = "" then ""
      else "Why this matters: " ++ st.why_it_matters ++ " ") ++
    (if st.mention_count > 1 ∧ st.sources ≠ [] then
      "This story was covered by " ++ toString st.mention_count ++
        " newsletters including " ++ st.sources.headD "" ++ "."
      else "")

/-- `_generate_top_stories` (lines 72-108). -/
def generate_top_stories (top_stories : List Story) : String :=
  if top_stories = [] then ""
  else
    String.intercalate "\n\n"
      ("Now, let's dive into the details." ::
        (top_stories.enumFrom 1).map (fun p => pyStrip (storyText p.1 top_stories.length p.2)))

/-- `_generate_secondary_stories` (lines 110-132). -/
def generate_secondary_stories (secondary_stories : List Story) : String :=
  if secondary_stories = [] then ""
  else
    String.intercalate " "
      ("Now for a quick roundup of other stories worth knowing about." ::
        secondary_stories.filterMap (fun st =>
          if st.headline ≠ "" ∧ st.summary ≠ "" then
            let first_sentence := (st.summary.splitOn ". ").headD ""
            let first_sentence :=
              if first_sentence.endsWith "." then first_sentence else first_sentence ++ "."
            some (st.headline ++ ". " ++ first_sentence)
          else if st.headline ≠ "" then some (st.headline ++ ".")
          else none))

/-- The `source_text` computed by `_generate_outro` (lines 136-140). -/
def outroSourceText (newsletters : List String) : String :=
  let source_text := String.intercalate ", " newsletters.dropLast
  if newsletters.length > 1 then source_text ++ ", and " ++ newsletters.getLastD ""
  else
    match newsletters with
    | [] => "various sources"
    | x :: _ => x

/-- `_generate_outro` (lines 134-146). -/
def generate_outro (newsletters : List String) : String :=
  "That's your AI briefing for today. This summary was compiled from " ++
    outroSourceText newsletters ++ ". Have a great day, and I'll see you tomorrow."

/-- The `sections` list assembled by `generate` (lines 31-47): intro,
executive summary, top-story detail, secondary stories (only when
non-empty), outro. -/
def scriptSections (date_spoken : String) (processed_data : ProcessedData)
    (newsletters_processed : List String) : List String :=
  [generate_intro date_spoken processed_data.top_stories.length,
   generate_executive_summary processed_data.top_stories,
   generate_top_stories processed_data.top_stories] ++
  (if processed_data.secondary_stories ≠ []
    then [generate_secondary_stories processed_data.secondary_stories] else []) ++
  [generate_outro newsletters_processed]

/-- `ScriptGenerator.generate` (lines 10-49): join the sections with a
blank line (`"\n\n".join(sections)`). -/
def generate (date_spoken : String) (processed_data : ProcessedData)
    (newsletters_processed : List String) : String :=
  String.intercalate "\n\n" (scriptSections date_spoken processed_data newsletters_processed)

end ScriptGenerator

/-! ## BriefingGenerator._build_subject (src/briefing_generator.py, lines 86-97)

The configured `subject_prefix` and the `date_str` from `datetime.now()`
are explicit arguments (`pre`, `date_str`). -/

def build_subject (pre date_str : String) (top_stories : List Story) : String :=
  match top_stories with
  | [] => pre ++ " " ++ date_str
  | st :: _ =>
    let top_headline := st.headline.take 60
    let top_headline := if st.headline.length > 60 then top_headline ++ "..." else top_headline
    pre ++ " " ++ date_str ++ ": " ++ top_headline

/-! ## Pipeline orchestrator (src/main.py, run_pipeline)

The embedding is parametric in the external effects: `fetchText` is
`gmail_client.get_email_text` (per message id, may raise), `sourceName` is
`config.get_source_name`, `extract` is the (retried, ultimately
successful) `parser.extract_stories`, `dedup` is `deduplicator.process`,
`genBriefing` is `BriefingGenerator.generate` and `send` is
`sender.send_briefing` returning `sent_result.get("id")`.  `email_list`
is the outcome of the (retried, ultimately successful) search stage.
The audio stage (step 5) only affects the audio artefact and is not
modelled; the wall-clock `duration_seconds` field is likewise omitted. -/

structure EmailMeta where
  id : String
  fromAddr : String
  subject : String
  deriving Repr, DecidableEq

/-- Result dictionary of `run_pipeline`; keys absent from a given return
dict are `none`. -/
structure PipelineResult where
  success : Bool
  newsletters_found : Nat
  newsletters_processed : Option Nat
  stories_extracted : Nat
  stories_after_dedup : Option Nat
  briefing_sent : Bool
  message : Option String
  message_id : Option String
  deriving Repr, DecidableEq

/-- The per-message fetch loop of `run_pipeline` (src/main.py lines
117-128): accumulates the fetched newsletter payloads and the
deduplicated source-name list; a failing fetch is caught and the message
skipped. -/
def fetchLoopAux (fetchText : String → Except String D) (sourceName : String → String) :
    List D × List String → List EmailMeta → List D × List String
  | acc, [] => acc
  | acc, e :: rest =>
    match fetchText e.id with
    | Except.ok d =>
      let src := sourceName e.fromAddr
      fetchLoopAux fetchText sourceName
        (acc.1 ++ [d], if src ∈ acc.2 then acc.2 else acc.2 ++ [src]) rest
    | Except.error _ => fetchLoopAux fetchText sourceName acc rest

/-- The fetch loop started from empty `newsletters` / `newsletters_processed`. -/
def fetchLoop (fetchText : String → Except String D) (sourceName : String → String)
    (email_list : List EmailMeta) : List D × List String :=
  fetchLoopAux fetchText sourceName ([], []) email_list

/-- `run_pipeline` (src/main.py lines 55-266), from the point where the
message list is known. -/
def run_pipeline (email_list : List EmailMeta)
    (fetchText : String → Except String D) (sourceName : String → String)
    (extract : List D → List Story) (dedup : List Story → ProcessedData)
    (genBriefing : ProcessedData → List String → B) (send : B → Option String) :
    PipelineResult :=
  if email_list.isEmpty then
    ⟨true, 0, none, 0, none, false, some "No newsletters found", none⟩
  else
    let fetched := fetchLoop fetchText sourceName email_list
    let newsletters := fetched.1
    let newsletters_processed := fetched.2
    if newsletters.isEmpty then
      ⟨true, email_list.length, none, 0, none, false,
        some "Failed to fetch newsletter content", none⟩
    else
      let raw_stories := extract newsletters
      if raw_stories.isEmpty then
        ⟨true, email_list.length, some newsletters.length, 0, none, false,
          some "No stories extracted from newsletters", none⟩
      else
        let processed_data := dedup raw_stories
        let briefing := genBriefing processed_data newsletters_processed
        let sent_id := send briefing
        ⟨true, email_list.length, some newsletters.length, raw_stories.length,
          some (processed_data.top_stories.length + processed_data.secondary_stories.length),
          true, none, sent_id⟩

/-! ## Spec-side renderings

Definitions below follow the wording of spec claims (not the source), to
be compared against the source embeddings above. -/

/-- Claim C2's stated output shape: the non-empty sections joined with
exactly one blank line between consecutive non-empty sections. -/
def nonEmptyJoin (sections : List String) : String :=
  String.intercalate "\n\n" (sections.filter (fun sec => sec ≠ ""))

/-- "Ends with a period", stated on the character list. -/
def endsWithPeriod (s : String) : Bool := s.data.getLast? = some '.'

/-- Claim C3's stated executive summary: one lead sentence, then each of
the first `min 5 length` top-story headlines as its own sentence, the
headline verbatim with a period appended only if it does not already end
with one; absent when `top_stories` is empty. -/
def execSummaryClaimed (top_stories : List Story) : String :=
  if top_stories = [] then ""
  else
    String.intercalate " "
      ("First, a quick overview of today's top headlines." ::
        (top_stories.take 5).map (fun st =>
          if endsWithPeriod st.headline then st.headline else st.headline ++ "."))

/-- Claim C8's stated subject: the configured prefix string, a space, the
date, and — when `top_stories` is non-empty — a colon and the first top
story's headline truncated to its first 60 characters, with "..." appended
exactly when the headline's length exceeds 60. -/
def subjectClaimed (pre date_str : String) (top_stories : List Story) : String :=
  match top_stories with
  | [] => pre ++ " " ++ date_str
  | st :: _ =>
    pre ++ " " ++ date_str ++ ": " ++ st.headline.take 60 ++
      (if st.headline.length > 60 then "..." else "")

/-! ## Lemmas about the retry loop -/

/-- For an operation that fails on every call, each pass of the retry loop
makes exactly `remaining` further calls and ends with the error of the
last call made. -/
lemma retryGo_fail_spec (func : Nat → Except Err Val) (errs : Nat → Err)
    (hf : ∀ i, func i = Except.error (errs i)) (mA bD : Nat) :
    ∀ remaining attempt last, 1 ≤ remaining →
      (retryGo func mA bD remaining attempt last).calls = remaining ∧
      (retryGo func mA bD remaining attempt last).result =
        Except.error (some (errs (attempt + remaining - 1))) := by
  intro remaining
  induction remaining with
  | zero => intro attempt last h; exact absurd h (by omega)
  | succ m ih =>
    intro attempt last _
    rcases m with _ | k
    · simp [retryGo, hf]
    · have h2 := ih (attempt + 1) (some (errs attempt)) (by omega)
      have harith : attempt + 1 + (k + 1) - 1 = attempt + (k + 1 + 1) - 1 := by omega
      rw [harith] at h2
      simp only [retryGo, hf] at h2 ⊢
      exact ⟨by rw [h2.1], by rw [h2.2]⟩

/-- For an operation that fails on every call, the retry loop's sleep
durations starting at `attempt` are `bD * 2 ^ a` for
`a = attempt, ..., mA - 2` — uncapped. -/
lemma retryGo_sleeps_spec (func : Nat → Except Err Val) (errs : Nat → Err)
    (hf : ∀ i, func i = Except.error (errs i)) (mA bD : Nat) :
    ∀ remaining attempt last, attempt + remaining = mA →
      (retryGo func mA bD remaining attempt last).sleeps =
        (List.range' attempt (remaining - 1)).map (fun a => bD * 2 ^ a) := by
  intro remaining
  induction remaining with
  | zero => intro attempt last _; simp [retryGo]
  | succ m ih =>
    intro attempt last hinv
    rcases m with _ | k
    · have hlt : ¬ attempt < mA - 1 := by omega
      simp [retryGo, hf, hlt]
    · have hlt : attempt < mA - 1 := by omega
      have h2 := ih (attempt + 1) (some (errs attempt)) (by omega)
      simp only [retryGo, hf, hlt, if_true] at h2 ⊢
      simp only [h2, List.range']
      rfl

/-! ## Claim theorems: retry (C1, C5) -/

/-- Claim C1, counterexample: with base delay 5 and an operation failing on
every call over 6 attempts, the sleep after the 5th failed attempt
(k = 5 < maxAttempts = 6) lasts 80 seconds, whereas the claim's
`min(5 * 2^(5-1), retry_max_delay)` with the configured default max delay
of 60 demands 60 — the cap is never applied by `retry_with_backoff`. -/
theorem retry_cap_counterexample :
    (retry_with_backoff (fun i => (Except.error i : Except Nat Unit)) 6 5).sleeps =
      [5, 10, 20, 40, 80] ∧
    Nat.min (5 * 2 ^ (5 - 1)) retry_max_delay_default = 60 ∧
    (retry_with_backoff (fun i => (Except.error i : Except Nat Unit)) 6 5).sleeps.getD 4 0 ≠
      Nat.min (5 * 2 ^ (5 - 1)) retry_max_delay_default := by
  decide

/-- Claim C1, amended: for every base delay `b`, attempt count `n` and
operation failing on every call, the backoff executor sleeps exactly
`n - 1` times and the sleep after the k-th failed attempt (1-indexed,
k < n) lasts exactly `b * 2 ^ (k - 1)` seconds — uncapped, since
`retry_with_backoff` never consults `retry_max_delay`; no sleep occurs
after the final attempt's failure. -/
theorem retry_sleeps_uncapped (n b : Nat) (func : Nat → Except Err Val)
    (errs : Nat → Err) (hf : ∀ i, func i = Except.error (errs i)) :
    (retry_with_backoff func n b).sleeps =
      (List.range (n - 1)).map (fun a => b * 2 ^ a) := by
  have h := retryGo_sleeps_spec func errs hf n b n 0 none (by omega)
  rw [retry_with_backoff, h, List.range_eq_range']

/-- Witness for `retry_sleeps_uncapped` at n = 6, b = 5. -/
theorem retry_sleeps_uncapped_witness :
    (retry_with_backoff (fun i => (Except.error i : Except Nat Unit)) 6 5).sleeps =
      (List.range (6 - 1)).map (fun a => 5 * 2 ^ a) :=
  retry_sleeps_uncapped 6 5 (fun i => (Except.error i : Except Nat Unit))
    (fun i => i) (fun _ => rfl)

/-- Claim C5: for every `maxAttempts = n ≥ 1` and every operation that
fails on every call, `retry_with_backoff` invokes the operation exactly
`n` times and the error it finally raises is the operation's n-th (last)
failure itself, unwrapped (`some` here only models Python's
`last_exception` being non-`None`). -/
theorem retry_exhaustion_calls_and_final_error (n b : Nat)
    (func : Nat → Except Err Val) (errs : Nat → Err) (hn : 1 ≤ n)
    (hf : ∀ i, func i = Except.error (errs i)) :
    (retry_with_backoff func n b).calls = n ∧
    (retry_with_backoff func n b).result = Except.error (some (errs (n - 1))) := by
  have h := retryGo_fail_spec func errs hf n b n 0 none hn
  simpa [retry_with_backoff] using h

/-- Witness for `retry_exhaustion_calls_and_final_error` at n = 3, b = 5. -/
theorem retry_exhaustion_witness :
    (retry_with_backoff (fun i => (Except.error i : Except Nat Unit)) 3 5).calls = 3 ∧
    (retry_with_backoff (fun i => (Except.error i : Except Nat Unit)) 3 5).result =
      Except.error (some 2) :=
  retry_exhaustion_calls_and_final_error 3 5
    (fun i => (Except.error i : Except Nat Unit)) (fun i => i) (by decide) (fun _ => rfl)

/-! ## Claim theorems: renderers (C8, C9) -/

/-- Claim C8: the subject line is the prefix, the date, and — when
`top_stories` is non-empty — a colon and the first top story's headline
truncated to its first 60 characters with "..." appended exactly when the
headline's length exceeds 60; in particular a 75-character headline yields
the first 60 characters plus "...". -/
theorem build_subject_matches_claim :
    (∀ (pre date_str : String) (top_stories : List Story),
      build_subject pre date_str top_stories = subjectClaimed pre date_str top_stories) ∧
    ∀ (pre date_str : String) (st : Story) (rest : List Story),
      st.headline.length = 75 →
      build_subject pre date_str (st :: rest) =
        pre ++ " " ++ date_str ++ ": " ++ st.headline.take 60 ++ "..." := by
  constructor
  · intro pre date_str top_stories
    cases top_stories with
    | nil => rfl
    | cons st rest =>
      simp only [build_subject, subjectClaimed]
      split
      · simp [String.append_assoc]
      · simp
  · intro pre date_str st rest h75
    have hgt : st.headline.length > 60 := by omega
    simp only [build_subject, if_pos hgt]
    simp [String.append_assoc]

/-- Witness for `build_subject_matches_claim`: a 75-character headline is
truncated to its first 60 characters plus "...". -/
theorem build_subject_matches_claim_witness :
    build_subject "[AI Briefing]" "January 28, 2026"
        [⟨"AAAAAAAAAAAAAAAAAAAAAAAAAAAAAAAAAAAAAAAAAAAAAAAAAAAAAAAAAAAAAAAAAAAAAAAAAAA",
          "", "", [], 1⟩] =
      "[AI Briefing]" ++ " " ++ "January 28, 2026" ++ ": " ++
        ("AAAAAAAAAAAAAAAAAAAAAAAAAAAAAAAAAAAAAAAAAAAAAAAAAAAAAAAAAAAAAAAAAAAAAAAAAAA" :
          String).take 60 ++ "..." :=
  build_subject_matches_claim.2 "[AI Briefing]" "January 28, 2026"
    ⟨"AAAAAAAAAAAAAAAAAAAAAAAAAAAAAAAAAAAAAAAAAAAAAAAAAAAAAAAAAAAAAAAAAAAAAAAAAAA",
      "", "", [], 1⟩ [] (by decide)

/-- Claim C9: the outro names the sources by the joining rule — an empty
list yields "various sources", a one-element list yields its element, and
a list of n ≥ 2 elements yields the first n-1 joined with ", " followed by
", and " and the last; the outro text embeds exactly this source text. -/
theorem outro_source_joining :
    ScriptGenerator.outroSourceText [] = "various sources" ∧
    (∀ a : String, ScriptGenerator.outroSourceText [a] = a) ∧
    (∀ (xs : List String) (x : String), xs ≠ [] →
      ScriptGenerator.outroSourceText (xs ++ [x]) =
        String.intercalate ", " xs ++ ", and " ++ x) ∧
    ScriptGenerator.outroSourceText ["A", "B"] = "A, and B" ∧
    ScriptGenerator.outroSourceText ["A", "B", "C"] = "A, B, and C" ∧
    ∀ newsletters : List String,
      ScriptGenerator.generate_outro newsletters =
        "That's your AI briefing for today. This summary was compiled from " ++
          ScriptGenerator.outroSourceText newsletters ++
          ". Have a great day, and I'll see you tomorrow." := by
  refine ⟨by decide, ?_, ?_, by decide, by decide, fun newsletters => rfl⟩
  · intro a
    simp [ScriptGenerator.outroSourceText]
  · intro xs x hxs
    have hlen : (xs ++ [x]).length > 1 := by
      have := List.length_pos.mpr hxs
      simp [List.length_append]
      omega
    simp [ScriptGenerator.outroSourceText, hlen, List.dropLast_concat,
      List.getLastD_concat]
    exact fun h => absurd h hxs

/-- Witness for `outro_source_joining` on ["A","B"] ++ ["C"]. -/
theorem outro_source_joining_witness :
    ScriptGenerator.outroSourceText (["A", "B"] ++ ["C"]) =
      String.intercalate ", " ["A", "B"] ++ ", and " ++ "C" :=
  outro_source_joining.2.2.1 ["A", "B"] "C" (by decide)

/-! ## Claim theorems: script assembly (C2, C3, C4) -/

/-- Joining with a separator around two empty middle entries leaves the
separators in place. -/
lemma intercalate_two_blanks (a b : String) :
    String.intercalate "\n\n" [a, "", "", b] = a ++ "\n\n\n\n\n\n" ++ b := by
  have h1 : String.intercalate "\n\n" [a, "", "", b] =
      a ++ "\n\n" ++ "" ++ "\n\n" ++ "" ++ "\n\n" ++ b := rfl
  rw [h1]
  simp only [String.append_empty, String.append_assoc]
  rw [← String.append_assoc "\n\n" "\n\n", ← String.append_assoc ("\n\n" ++ "\n\n") "\n\n"]
  congr 1

/-- Claim C2, counterexample: with empty `top_stories` the executive
summary and top-stories sections render empty yet still contribute their
surrounding separators, so the output differs from the non-empty-sections
join stated by the claim. -/
theorem script_join_counterexample :
    ScriptGenerator.generate "Wednesday, January 28" ⟨[], []⟩ ["TechCrunch AI"] ≠
      nonEmptyJoin
        (ScriptGenerator.scriptSections "Wednesday, January 28" ⟨[], []⟩ ["TechCrunch AI"]) := by
  decide

/-- Claim C2, amended: `generate` joins all constructed sections with
"\n\n" without filtering empty ones, so when `top_stories` and
`secondary_stories` are empty the intro and outro end up separated by
three consecutive separators (six newlines). -/
theorem script_join_amended (date_spoken : String) (newsletters : List String) :
    ScriptGenerator.generate date_spoken ⟨[], []⟩ newsletters =
      ScriptGenerator.generate_intro date_spoken 0 ++ "\n\n\n\n\n\n" ++
        ScriptGenerator.generate_outro newsletters := by
  show String.intercalate "\n\n"
      [ScriptGenerator.generate_intro date_spoken 0, "", "",
        ScriptGenerator.generate_outro newsletters] = _
  exact intercalate_two_blanks _ _

/-- Witness for `script_join_amended` at concrete inputs. -/
theorem script_join_amended_witness :
    ScriptGenerator.generate "Wednesday, January 28" ⟨[], []⟩ ["TechCrunch AI"] =
      ScriptGenerator.generate_intro "Wednesday, January 28" 0 ++ "\n\n\n\n\n\n" ++
        ScriptGenerator.generate_outro ["TechCrunch AI"] :=
  script_join_amended "Wednesday, January 28" ["TechCrunch AI"]

/-- The executive-summary loop keeps exactly the stories with a non-empty
headline, appending a period to each. -/
lemma execLines_eq_filter_map (l : List Story) :
    ScriptGenerator.execLines l =
      (l.filter (fun st => st.headline != "")).map (fun st => st.headline ++ ".") := by
  induction l with
  | nil => rfl
  | cons st rest ih =>
    by_cases h : st.headline = "" <;>
      simp [ScriptGenerator.execLines, List.filter_cons, h, ih]

/-- Claim C3, counterexample: a headline already ending with a period gets
a second one — the code appends "." unconditionally, not only when
missing. -/
theorem exec_summary_counterexample :
    ScriptGenerator.generate_executive_summary
        [⟨"OpenAI released a new model.", "", "", [], 1⟩] =
      "First, a quick overview of today's top headlines. OpenAI released a new model.." ∧
    execSummaryClaimed [⟨"OpenAI released a new model.", "", "", [], 1⟩] =
      "First, a quick overview of today's top headlines. OpenAI released a new model." ∧
    ScriptGenerator.generate_executive_summary
        [⟨"OpenAI released a new model.", "", "", [], 1⟩] ≠
      execSummaryClaimed [⟨"OpenAI released a new model.", "", "", [], 1⟩] := by
  refine ⟨by decide, by decide, by decide⟩

/-- Claim C3, amended: for non-empty `top_stories`, the executive summary
is one lead sentence followed by each non-empty headline among the first
5 top stories as its own sentence, with a period appended unconditionally
(a headline already ending in "." receives a second one); the section is
absent when `top_stories` is empty. -/
theorem exec_summary_amended (top_stories : List Story) (h : top_stories ≠ []) :
    ScriptGenerator.generate_executive_summary top_stories =
      String.intercalate " "
        ("First, a quick overview of today's top headlines." ::
          ((top_stories.take 5).filter (fun st => st.headline != "")).map
            (fun st => st.headline ++ ".")) := by
  rw [ScriptGenerator.generate_executive_summary, if_neg h, execLines_eq_filter_map]

/-- Witness for `exec_summary_amended` on a single story. -/
theorem exec_summary_amended_witness :
    ScriptGenerator.generate_executive_summary [⟨"Hello world", "", "", [], 1⟩] =
      String.intercalate " "
        ("First, a quick overview of today's top headlines." ::
          (([(⟨"Hello world", "", "", [], 1⟩ : Story)].take 5).filter
            (fun st => st.headline != "")).map (fun st => st.headline ++ ".")) :=
  exec_summary_amended [⟨"Hello world", "", "", [], 1⟩] (by decide)

/-- Claim C4, counterexample: the script text depends on the current date
read via `datetime.now()`, so two invocations with identical
`(categorized, sourceNames)` on different days yield different bytes. -/
theorem script_determinism_counterexample :
    ScriptGenerator.generate "Monday, January 05" ⟨[], []⟩ ["A"] ≠
      ScriptGenerator.generate "Tuesday, January 06" ⟨[], []⟩ ["A"] := by
  decide

/-- Claim C4, amended: the Script Renderer is deterministic once the
current date is counted among its inputs — identical
`(date_spoken, categorized, sourceNames)` always yield byte-identical
output. -/
theorem script_determinism_amended (d d' : String) (pd pd' : ProcessedData)
    (ns ns' : List String) (h1 : d = d') (h2 : pd = pd') (h3 : ns = ns') :
    ScriptGenerator.generate d pd ns = ScriptGenerator.generate d' pd' ns' := by
  rw [h1, h2, h3]

/-- Witness for `script_determinism_amended` at identical concrete inputs. -/
theorem script_determinism_amended_witness :
    ScriptGenerator.generate "Monday, January 05" ⟨[], []⟩ ["A"] =
      ScriptGenerator.generate "Monday, January 05" ⟨[], []⟩ ["A"] :=
  script_determinism_amended "Monday, January 05" "Monday, January 05"
    ⟨[], []⟩ ⟨[], []⟩ ["A"] ["A"] rfl rfl rfl

/-! ## Claim theorems: pipeline (C6, C7) -/

/-- Invariant of the per-message fetch loop: the fetched payloads are the
successful fetches in list order appended to the accumulator, and every
processed source name comes from the accumulator or from a message whose
fetch succeeded. -/
lemma fetchLoopAux_spec (fetchText : String → Except String D)
    (sourceName : String → String) :
    ∀ (emails : List EmailMeta) (acc : List D × List String),
      (fetchLoopAux fetchText sourceName acc emails).1 =
        acc.1 ++ emails.filterMap (fun e => (fetchText e.id).toOption) ∧
      ∀ s ∈ (fetchLoopAux fetchText sourceName acc emails).2,
        s ∈ acc.2 ∨
          ∃ e ∈ emails, (∃ d, fetchText e.id = Except.ok d) ∧ s = sourceName e.fromAddr := by
  intro emails
  induction emails with
  | nil => intro acc; simp [fetchLoopAux]
  | cons e rest ih =>
    intro acc
    cases hfe : fetchText e.id with
    | ok d =>
      simp only [fetchLoopAux, hfe]
      obtain ⟨ih1, ih2⟩ := ih (acc.1 ++ [d],
        if sourceName e.fromAddr ∈ acc.2 then acc.2 else acc.2 ++ [sourceName e.fromAddr])
      constructor
      · rw [ih1]; simp [List.filterMap_cons, hfe, Except.toOption]
      · intro s hs
        rcases ih2 s hs with hmem | ⟨e', he', hde', hse'⟩
        · by_cases hc : sourceName e.fromAddr ∈ acc.2
          · left; simpa [hc] using hmem
          · rw [if_neg hc] at hmem
            rcases List.mem_append.mp hmem with h1 | h2
            · left; exact h1
            · right; exact ⟨e, by simp, ⟨d, hfe⟩, by simpa using h2⟩
        · right; exact ⟨e', by simp [he'], hde', hse'⟩
    | error err =>
      simp only [fetchLoopAux, hfe]
      obtain ⟨ih1, ih2⟩ := ih acc
      constructor
      · rw [ih1]; simp [List.filterMap_cons, hfe, Except.toOption]
      · intro s hs
        rcases ih2 s hs with h1 | ⟨e', he', rest'⟩
        · left; exact h1
        · right; exact ⟨e', by simp [he'], rest'⟩

/-- Claim C6: each listed message is fetched individually in list order —
the fetched payloads are exactly the successes, in order, a failing
message alone being skipped — and every entry of the processed-source
list is the source name of a message whose content fetch succeeded. -/
theorem fetch_stage_isolation (fetchText : String → Except String D)
    (sourceName : String → String) (email_list : List EmailMeta) :
    (fetchLoop fetchText sourceName email_list).1 =
      email_list.filterMap (fun e => (fetchText e.id).toOption) ∧
    ∀ s ∈ (fetchLoop fetchText sourceName email_list).2,
      ∃ e ∈ email_list, (∃ d, fetchText e.id = Except.ok d) ∧ s = sourceName e.fromAddr := by
  obtain ⟨h1, h2⟩ := fetchLoopAux_spec fetchText sourceName email_list ([], [])
  refine ⟨by simpa using h1, fun s hs => ?_⟩
  rcases h2 s hs with h | h
  · simp at h
  · exact h

/-- Witness for `fetch_stage_isolation`: three messages with the second
failing; the processed-source entry "c@z" comes from the successful third
message. -/
theorem fetch_stage_isolation_witness :
    ∃ e ∈ ([⟨"m1", "a@x", "s1"⟩, ⟨"m2", "b@y", "s2"⟩, ⟨"m3", "c@z", "s3"⟩] : List EmailMeta),
      (∃ d, (fun id => if id = "m2" then (Except.error "boom" : Except String Nat)
        else if id = "m1" then Except.ok 1 else Except.ok 3) e.id = Except.ok d) ∧
      "c@z" = (fun addr : String => addr) e.fromAddr :=
  (fetch_stage_isolation
      (fun id => if id = "m2" then (Except.error "boom" : Except String Nat)
        else if id = "m1" then Except.ok 1 else Except.ok 3)
      (fun addr : String => addr)
      [⟨"m1", "a@x", "s1"⟩, ⟨"m2", "b@y", "s2"⟩, ⟨"m3", "c@z", "s3"⟩]).2
    "c@z" (by decide)

/-- Claim C7: the three empty-outcome early exits of `run_pipeline` —
zero listed messages, zero successfully fetched messages, zero extracted
stories — each return `success = true`, `briefing_sent = false` and a
descriptive message, and the result is a constant independent of the
later stage functions (extraction, deduplication, briefing rendering and
sending are never invoked). -/
theorem pipeline_early_exits (fetchText : String → Except String D)
    (sourceName : String → String) :
    (∀ (extract : List D → List Story) (dedup : List Story → ProcessedData)
        (genBriefing : ProcessedData → List String → B) (send : B → Option String),
      run_pipeline [] fetchText sourceName extract dedup genBriefing send =
        ⟨true, 0, none, 0, none, false, some "No newsletters found", none⟩) ∧
    (∀ email_list, email_list ≠ [] →
      (fetchLoop fetchText sourceName email_list).1 = [] →
      ∀ (extract : List D → List Story) (dedup : List Story → ProcessedData)
          (genBriefing : ProcessedData → List String → B) (send : B → Option String),
        run_pipeline email_list fetchText sourceName extract dedup genBriefing send =
          ⟨true, email_list.length, none, 0, none, false,
            some "Failed to fetch newsletter content", none⟩) ∧
    (∀ email_list (extract : List D → List Story), email_list ≠ [] →
      (fetchLoop fetchText sourceName email_list).1 ≠ [] →
      extract (fetchLoop fetchText sourceName email_list).1 = [] →
      ∀ (dedup : List Story → ProcessedData)
          (genBriefing : ProcessedData → List String → B) (send : B → Option String),
        run_pipeline email_list fetchText sourceName extract dedup genBriefing send =
          ⟨true, email_list.length,
            some (fetchLoop fetchText sourceName email_list).1.length, 0, none, false,
            some "No stories extracted from newsletters", none⟩) := by
  refine ⟨fun extract dedup genBriefing send => rfl, ?_, ?_⟩
  · intro email_list hne hempty extract dedup genBriefing send
    simp [run_pipeline, hne, hempty]
  · intro email_list extract hne hfetched hraw dedup genBriefing send
    simp [run_pipeline, hne, hfetched, hraw]

/-- Witness for `pipeline_early_exits`: one listed message whose fetch
fails yields the fetch-stage early exit. -/
theorem pipeline_early_exits_witness :
    run_pipeline [(⟨"m1", "a@x", "s1"⟩ : EmailMeta)]
        (fun _ => (Except.error "x" : Except String Nat)) (fun addr => addr)
        (fun _ => ([] : List Story)) (fun _ => (⟨[], []⟩ : ProcessedData))
        (fun _ _ => ()) (fun _ => (none : Option String)) =
      ⟨true, 1, none, 0, none, false, some "Failed to fetch newsletter content", none⟩ :=
  (pipeline_early_exits (fun _ => (Except.error "x" : Except String Nat))
      (fun addr => addr)).2.1
    [⟨"m1", "a@x", "s1"⟩] (by decide) (by decide)
    (fun _ => []) (fun _ => ⟨[], []⟩) (fun _ _ => ()) (fun _ => none)

/-! ## Claim theorem: single top story intro phrase (C10) -/

/-- For a single top story the position-1 branch wins: the pre-strip story
text starts with the first-position phrase, and its remainder contains a
period (so stripping cannot eat into the phrase). -/
lemma storyText_one (st : Story) :
    ∃ u : String, ScriptGenerator.storyText 1 1 st = "Our top story today: " ++ u ∧
      '.' ∈ u.data := by
  refine ⟨st.headline ++ (". " ++
    ((if st.summary = "" then "" else st.summary ++ " ") ++
      ((if st.why_it_matters = "" then ""
          else "Why this matters: " ++ st.why_it_matters ++ " ") ++
        (if st.mention_count > 1 ∧ st.sources ≠ [] then
          "This story was covered by " ++ toString st.mention_count ++
            " newsletters including " ++ st.sources.headD "" ++ "."
          else "")))), ?_, ?_⟩
  · simp [ScriptGenerator.storyText, ScriptGenerator.storyIntroText, String.append_assoc]
  · rw [String.data_append]
    refine List.mem_append_right _ ?_
    rw [String.data_append]
    exact List.mem_append_left _ (by decide)

/-- Stripping a string that starts with the non-whitespace-fronted phrase
"Our top story today: " and whose tail contains a non-whitespace
character keeps the phrase as a prefix. -/
lemma pyStrip_pre (t : String) (ht : ∃ c ∈ t.data, ¬ c.isWhitespace) :
    ∃ v : String,
      pyStrip ("Our top story today: " ++ t) = "Our top story today: " ++ v := by
  refine ⟨⟨(t.data.reverse.dropWhile Char.isWhitespace).reverse⟩, ?_⟩
  apply String.ext
  show ((("Our top story today: " ++ t).data.dropWhile
      Char.isWhitespace).reverse.dropWhile Char.isWhitespace).reverse = _
  rw [String.data_append]
  rw [List.dropWhile_append]
  have h1 : (("Our top story today: ").data.dropWhile Char.isWhitespace).isEmpty = false := by
    decide
  rw [h1]
  have h2 : ("Our top story today: ").data.dropWhile Char.isWhitespace =
      ("Our top story today: ").data := by decide
  simp only [Bool.false_eq_true, if_false, h2]
  rw [List.reverse_append, List.dropWhile_append]
  have h3 : (t.data.reverse.dropWhile Char.isWhitespace).isEmpty = false := by
    obtain ⟨c, hc, hcw⟩ := ht
    rw [List.isEmpty_eq_false]
    intro hnil
    rw [List.dropWhile_eq_nil_iff] at hnil
    exact hcw (hnil c (List.mem_reverse.mpr hc))
  rw [h3]
  simp only [Bool.false_eq_true, if_false]
  rw [List.reverse_append, List.reverse_reverse]
  rfl

/-- The detail section for a singleton list is the lead sentence, a blank
line, and the stripped story text at position 1 of 1. -/
lemma generate_top_stories_single (st : Story) :
    ScriptGenerator.generate_top_stories [st] =
      "Now, let's dive into the details." ++ "\n\n" ++
        pyStrip (ScriptGenerator.storyText 1 1 st) := rfl

/-- Claim C10: when `top_stories` has exactly one story, the detail
section introduces it with the first-position phrase
"Our top story today: ", never with the last-position phrase
"And finally in our top stories: " — position 1 takes precedence when the
first story is also the last. -/
theorem single_top_story_first_phrase (st : Story) :
    ∃ rest : String,
      ScriptGenerator.generate_top_stories [st] =
        "Now, let's dive into the details.\n\nOur top story today: " ++ rest ∧
      ∀ r2 : String,
        ScriptGenerator.generate_top_stories [st] ≠
          "Now, let's dive into the details.\n\nAnd finally in our top stories: " ++ r2 := by
  obtain ⟨u, hu, hdot⟩ := storyText_one st
  obtain ⟨v, hv⟩ := pyStrip_pre u ⟨'.', hdot, by decide⟩
  have hpos : ScriptGenerator.generate_top_stories [st] =
      "Now, let's dive into the details.\n\nOur top story today: " ++ v := by
    rw [generate_top_stories_single, hu, hv, ← String.append_assoc]
    have hpre : ("Now, let's dive into the details." ++ "\n\n") ++ "Our top story today: " =
        "Now, let's dive into the details.\n\nOur top story today: " := by decide
    rw [hpre]
  refine ⟨v, hpos, ?_⟩
  intro r2 h
  have h35 : (ScriptGenerator.generate_top_stories [st]).data[35]? = some 'O' := by
    rw [hpos, String.data_append, List.getElem?_append_left (by decide)]
    decide
  rw [h, String.data_append, List.getElem?_append_left (by decide)] at h35
  have : ("Now, let's dive into the details.\n\nAnd finally in our top stories: ").data[35]? =
      some 'A' := by decide
  rw [this] at h35
  exact absurd h35 (by decide)

/-- Witness for `single_top_story_first_phrase` on a concrete story. -/
theorem single_top_story_first_phrase_witness :
    ∃ rest : String,
      ScriptGenerator.generate_top_stories [⟨"Big news", "It happened", "", [], 1⟩] =
        "Now, let's dive into the details.\n\nOur top story today: " ++ rest ∧
      ∀ r2 : String,
        ScriptGenerator.generate_top_stories [⟨"Big news", "It happened", "", [], 1⟩] ≠
          "Now, let's dive into the details.\n\nAnd finally in our top stories: " ++ r2 :=
  single_top_story_first_phrase ⟨"Big news", "It happened", "", [], 1⟩

end DailyNews
